import Mathlib

/-!
Verification of the DougHub extraction/ingestion pipeline.

Shallow embedding of `src/doughub/ingestion.py`, `src/doughub/ui/dto.py`,
`src/doughub/ui/parsing.py`, `src/doughub/persistence/repository.py` and the
automatic grouping engine.  Python dicts/JSON values are modelled by a `Json`
inductive, SQLAlchemy state by an explicit `Db` record, and file/HTTP effects
by explicit parameters and counters.
-/

namespace DougHub

mutual
/-- JSON values, as produced by Python's `json.load` / consumed by
`json.dumps` and by pydantic's `model_validate`.  Arrays and objects are
separate mutual inductives so that all functions over `Json` are structural
(and hence reduce definitionally). -/
inductive Json where
  | null : Json
  | bool : Bool → Json
  | num : Int → Json
  | str : String → Json
  | arr : JsonArr → Json
  | obj : JsonObj → Json

inductive JsonArr where
  | nil : JsonArr
  | cons : Json → JsonArr → JsonArr

inductive JsonObj where
  | nil : JsonObj
  | cons : String → Json → JsonObj → JsonObj
end

/-- First-match key lookup in a JSON object (Python `d[k]` / `k in d` on the
dicts produced by `json.load`; dict keys are unique, first match suffices). -/
def JsonObj.lookup : JsonObj → String → Option Json
  | .nil, _ => none
  | .cons k v rest, key => if k = key then some v else rest.lookup key

/-- `k in response_data` membership test plus access, on an arbitrary value:
only objects have keys. -/
def Json.getKey : Json → String → Option Json
  | .obj o, key => o.lookup key
  | _, _ => none

/-- Minimal JSON string escaping, for `json.dumps` (default separators). -/
def jsonEscapeChar (c : Char) : String :=
  if c = '"' then "\\\""
  else if c = '\\' then "\\\\"
  else if c = '\n' then "\\n"
  else if c = '\t' then "\\t"
  else if c = '\r' then "\\r"
  else String.singleton c

def jsonEscape (s : String) : String :=
  String.join (s.toList.map jsonEscapeChar)

mutual
/-- `json.dumps` with default separators, as used by
`ingestion.ingest_question` to serialize the metadata file. -/
def Json.dumps : Json → String
  | .null => "null"
  | .bool b => if b then "true" else "false"
  | .num n => toString n
  | .str s => "\"" ++ jsonEscape s ++ "\""
  | .arr xs => "[" ++ JsonArr.dumpsItems xs ++ "]"
  | .obj kvs => "\x7b" ++ JsonObj.dumpsItems kvs ++ "\x7d"

def JsonArr.dumpsItems : JsonArr → String
  | .nil => ""
  | .cons x .nil => Json.dumps x
  | .cons x rest => Json.dumps x ++ ", " ++ JsonArr.dumpsItems rest

def JsonObj.dumpsItems : JsonObj → String
  | .nil => ""
  | .cons k v .nil => "\"" ++ jsonEscape k ++ "\": " ++ Json.dumps v
  | .cons k v rest =>
      "\"" ++ jsonEscape k ++ "\": " ++ Json.dumps v ++ ", " ++ JsonObj.dumpsItems rest
end

/-! ## Filename parsing (`ingestion.parse_extraction_filename`) -/

/-- Python's `str.split(sep)` for a one-character separator, structurally over
the character list (so it evaluates definitionally): empty string gives one
empty field, adjacent separators give empty fields. -/
def splitOnChar (sep : Char) : List Char → List (List Char)
  | [] => [[]]
  | c :: rest =>
    let r := splitOnChar sep rest
    if c = sep then [] :: r
    else
      match r with
      | [] => [[c]]
      | g :: gs => (c :: g) :: gs

/-- `s.split(sep)` on a `String`. -/
def strSplitOn (s : String) (sep : Char) : List String :=
  (splitOnChar sep s.toList).map (fun cs => String.mk cs)

/-- `ingestion.parse_extraction_filename` (ingestion.py lines 163-192):
split the filename on `_`, require at least 4 tokens, drop the two timestamp
tokens, take the last remaining token minus extension as the key and rejoin
the middle tokens as the source name. -/
def parse_extraction_filename (filename : String) : Option (String × String) :=
  let parts := strSplitOn filename '_'
  if parts.length < 4 then
    none
  else
    let remaining := parts.drop 2
    if remaining.length < 2 then
      none
    else
      let question_key := ((strSplitOn (remaining.getLastD "") '.').headD "")
      let source_name := String.intercalate "_" remaining.dropLast
      some (source_name, question_key)

/-- The filename-parsing algorithm as the spec words it (§4.4): split on `_`;
fewer than 4 total tokens is a "no match"; otherwise discard the first two
tokens, the last remaining token minus extension is the key, and the tokens in
between are rejoined with `_` as the source name. -/
def parseFilenameSpec (filename : String) : Option (String × String) :=
  let parts := strSplitOn filename '_'
  if parts.length < 4 then
    none
  else
    let rest := parts.drop 2
    some (String.intercalate "_" rest.dropLast, ((strSplitOn (rest.getLastD "") '.').headD ""))

/-- C4: `parse_extraction_filename` implements exactly the split/discard/rejoin
algorithm of the spec, returns the `none` sentinel on fewer than 4 tokens, and
gives the three documented example results. -/
theorem parse_extraction_filename_correct :
    (∀ filename : String, parse_extraction_filename filename = parseFilenameSpec filename) ∧
    parse_extraction_filename "20251116_150929_MKSAP_19_0.json" = some ("MKSAP_19", "0") ∧
    parse_extraction_filename "invalid_filename.json" = none ∧
    parse_extraction_filename "20251116_150929.json" = none := by
  refine ⟨fun filename => ?_, by decide, by decide, by decide⟩
  unfold parse_extraction_filename parseFilenameSpec
  by_cases h : (strSplitOn filename '_').length < 4
  · simp [h]
  · have h2 : (((strSplitOn filename '_').drop 2).length < 2) = False := by
      rw [List.length_drop]
      simp only [eq_iff_iff, iff_false]
      omega
    simp only [h, if_false, h2]

/-! ## String primitives (models of Python `str` methods, structural over
`List Char` so they evaluate definitionally) -/

/-- Python `str.strip()` restricted to ASCII whitespace. -/
def trimChars (cs : List Char) : List Char :=
  ((cs.dropWhile Char.isWhitespace).reverse.dropWhile Char.isWhitespace).reverse

def strTrim (s : String) : String := ⟨trimChars s.toList⟩

/-- Python `str.startswith(p)`. -/
def strStartsWith (s p : String) : Bool := p.toList.isPrefixOf s.toList

/-- Python `str.endswith(p)`. -/
def strEndsWith (s p : String) : Bool := p.toList.reverse.isPrefixOf s.toList.reverse

/-- Python `s[n:]`. -/
def strDrop (s : String) (n : Nat) : String := ⟨s.toList.drop n⟩

/-- Python `s[:-n]` (for `n ≤ len s`). -/
def strDropRight (s : String) (n : Nat) : String := ⟨s.toList.take (s.toList.length - n)⟩

/-! ## LLM response handling (`ingestion.call_extraction_llm`) -/

/-- Outcome of locating the text content inside the LLM HTTP response
(ingestion.py lines 116-121). `unexpectedFormat` is the explicit
`ValueError("Unexpected LLM response format: ...")`; `otherError` stands for
the `KeyError`/`TypeError` exceptions Python raises when the located branch
does not have the indexed shape. -/
inductive LocateResult where
  | ok : String → LocateResult
  | unexpectedFormat : LocateResult
  | otherError : LocateResult
deriving DecidableEq, Repr

/-- The `elif "content" in response_data` fallback and the final `else` raise
(ingestion.py lines 118-121). A non-string `content` value would crash on the
later `content.strip()`, hence `otherError`. -/
def locateFallback (response : Json) : LocateResult :=
  match response.getKey "content" with
  | some (.str s) => .ok s
  | some _ => .otherError
  | none => .unexpectedFormat

/-- Content location of `call_extraction_llm` (ingestion.py lines 116-121):
`choices[0]["message"]["content"]` when `choices` is present and non-empty,
the flat `content` field when `choices` is absent or empty, else the explicit
unexpected-format error. A present `choices` that is a non-empty string or
dict enters the first branch and crashes on indexing (`otherError`); an empty
string/dict has `len == 0` and falls through to the `elif`. -/
def locateContent (response : Json) : LocateResult :=
  match response.getKey "choices" with
  | some (.arr (.cons c _)) =>
    match c.getKey "message" with
    | some m =>
      match m.getKey "content" with
      | some (.str s) => .ok s
      | some _ => .otherError
      | none => .otherError
    | none => .otherError
  | some (.arr .nil) => locateFallback response
  | some (.str s) => if s.toList.length > 0 then .otherError else locateFallback response
  | some (.obj .nil) => locateFallback response
  | some (.obj (.cons _ _ _)) => .otherError
  | some _ => .otherError
  | none => locateFallback response

/-- Markdown code-fence cleanup of `call_extraction_llm` (ingestion.py lines
127-134): strip, drop a leading `¬¬¬json` (7 chars), then a leading `¬¬¬`,
then a trailing `¬¬¬`, and strip again (backticks written `¬` here). -/
def stripFences (content : String) : String :=
  let c0 := strTrim content
  let c1 := if strStartsWith c0 "```json" then strDrop c0 7 else c0
  let c2 := if strStartsWith c1 "```" then strDrop c1 3 else c1
  let c3 := if strEndsWith c2 "```" then strDropRight c2 3 else c2
  strTrim c3

/-- C7 counterexample: a leading fence carrying a language tag other than
`json` is not stripped as a fence — the tag text survives into the content
that will be JSON-decoded. -/
theorem call_extraction_llm_fences_counterexample :
    stripFences "```python\n[1, 2]\n```" = "python\n[1, 2]" ∧
    stripFences "```python\n[1, 2]\n```" ≠ "[1, 2]" := by
  constructor
  · decide
  · decide

/-- C7 (amended): `call_extraction_llm` locates the content at
`choices[0].message.content`, falls back to a flat top-level `content` field
when `choices` is absent or empty, and otherwise raises the explicit
unexpected-response-shape error; it strips optional leading/trailing
triple-backtick code fences where the leading fence may carry the specific
language tag `json` — a fence with any other language tag loses only its
backticks and the tag text remains. -/
theorem call_extraction_llm_locate_and_fences :
    (∀ (resp c : Json) (rest : JsonArr) (m : Json) (s : String),
        resp.getKey "choices" = some (.arr (.cons c rest)) →
        c.getKey "message" = some m →
        m.getKey "content" = some (.str s) →
        locateContent resp = .ok s) ∧
    (∀ (resp : Json) (s : String),
        resp.getKey "choices" = none →
        resp.getKey "content" = some (.str s) →
        locateContent resp = .ok s) ∧
    (∀ (resp : Json) (s : String),
        resp.getKey "choices" = some (.arr .nil) →
        resp.getKey "content" = some (.str s) →
        locateContent resp = .ok s) ∧
    (∀ resp : Json,
        resp.getKey "choices" = none →
        resp.getKey "content" = none →
        locateContent resp = .unexpectedFormat) ∧
    (∀ resp : Json,
        resp.getKey "choices" = some (.arr .nil) →
        resp.getKey "content" = none →
        locateContent resp = .unexpectedFormat) ∧
    stripFences "```json\n[1, 2]\n```" = "[1, 2]" ∧
    stripFences "```\n[1, 2]\n```" = "[1, 2]" ∧
    stripFences "  [1, 2]  " = "[1, 2]" ∧
    stripFences "```python\n[1, 2]\n```" = "python\n[1, 2]" := by
  refine ⟨?_, ?_, ?_, ?_, ?_, by decide, by decide, by decide, by decide⟩
  · intro resp c rest m s hch hm hc
    simp [locateContent, hch, hm, hc]
  · intro resp s hch hc
    simp [locateContent, locateFallback, hch, hc]
  · intro resp s hch hc
    simp [locateContent, locateFallback, hch, hc]
  · intro resp hch hc
    simp [locateContent, locateFallback, hch, hc]
  · intro resp hch hc
    simp [locateContent, locateFallback, hch, hc]

/-- Witness for C7: the theorem applied to a concrete OpenAI-shaped response,
a concrete flat-content response and a concrete empty response. -/
theorem call_extraction_llm_locate_and_fences_witness :
    locateContent (.obj (.cons "choices"
        (.arr (.cons (.obj (.cons "message"
            (.obj (.cons "content" (.str "[1]") .nil)) .nil)) .nil)) .nil)) = .ok "[1]" ∧
    locateContent (.obj (.cons "content" (.str "[2]") .nil)) = .ok "[2]" ∧
    locateContent (.obj (.cons "model" (.str "m") .nil)) = .unexpectedFormat := by
  refine ⟨?_, ?_, ?_⟩
  · exact call_extraction_llm_locate_and_fences.1
      (.obj (.cons "choices" (.arr (.cons (.obj (.cons "message"
          (.obj (.cons "content" (.str "[1]") .nil)) .nil)) .nil)) .nil))
      (.obj (.cons "message" (.obj (.cons "content" (.str "[1]") .nil)) .nil))
      .nil
      (.obj (.cons "content" (.str "[1]") .nil))
      "[1]" rfl rfl rfl
  · exact call_extraction_llm_locate_and_fences.2.1
      (.obj (.cons "content" (.str "[2]") .nil)) "[2]" rfl rfl
  · exact call_extraction_llm_locate_and_fences.2.2.2.1
      (.obj (.cons "model" (.str "m") .nil)) rfl rfl

/-! ## Minimal extraction schema (`ui/dto.py`, `MinimalQuestion`) -/

/-- `MinimalQuestion` (dto.py lines 143-150): `question_context_html`
defaults to the empty string, `question_stem_html` is required. -/
structure MinimalQuestion where
  question_context_html : String
  question_stem_html : String
deriving DecidableEq, Repr

/-- `MinimalQuestionBatch` (dto.py lines 153-155). -/
structure MinimalQuestionBatch where
  questions : List MinimalQuestion
deriving DecidableEq, Repr

/-- Pydantic `MinimalQuestion.model_validate` on a JSON value: `str` fields
accept only strings (an explicit `null` is a validation error), a missing
`question_context_html` takes the declared default `""`, a missing
`question_stem_html` is a `field required` error, and unknown extra keys are
ignored (the model declares no extra-key policy, so pydantic's default
`ignore` applies). -/
def MinimalQuestion.model_validate (j : Json) : Except String MinimalQuestion :=
  match j with
  | .obj kvs =>
    match kvs.lookup "question_stem_html" with
    | some (.str stem) =>
      match kvs.lookup "question_context_html" with
      | none => .ok ⟨"", stem⟩
      | some (.str ctx) => .ok ⟨ctx, stem⟩
      | some _ => .error "question_context_html: input should be a valid string"
    | some _ => .error "question_stem_html: input should be a valid string"
    | none => .error "question_stem_html: field required"
  | _ => .error "input should be a valid dictionary"

/-- C6: a missing or null `question_stem_html` fails validation; an explicit
null `question_context_html` fails validation; omitting
`question_context_html` validates with the field defaulting to `""`; and an
unrecognized extra key never changes the validation result (so it is absent
from the resulting two-field object). -/
theorem minimal_question_validation :
    (∀ kvs : JsonObj, kvs.lookup "question_stem_html" = none →
        ∃ e, MinimalQuestion.model_validate (.obj kvs) = .error e) ∧
    (∀ kvs : JsonObj, kvs.lookup "question_stem_html" = some .null →
        ∃ e, MinimalQuestion.model_validate (.obj kvs) = .error e) ∧
    (∀ (kvs : JsonObj) (s : String),
        kvs.lookup "question_stem_html" = some (.str s) →
        kvs.lookup "question_context_html" = some .null →
        ∃ e, MinimalQuestion.model_validate (.obj kvs) = .error e) ∧
    (∀ (kvs : JsonObj) (s : String),
        kvs.lookup "question_stem_html" = some (.str s) →
        kvs.lookup "question_context_html" = none →
        MinimalQuestion.model_validate (.obj kvs) = .ok ⟨"", s⟩) ∧
    (∀ (k : String) (v : Json) (kvs : JsonObj),
        k ≠ "question_stem_html" → k ≠ "question_context_html" →
        MinimalQuestion.model_validate (.obj (.cons k v kvs)) =
          MinimalQuestion.model_validate (.obj kvs)) := by
  refine ⟨?_, ?_, ?_, ?_, ?_⟩
  · intro kvs h
    exact ⟨"question_stem_html: field required",
      by simp [MinimalQuestion.model_validate, h]⟩
  · intro kvs h
    exact ⟨"question_stem_html: input should be a valid string",
      by simp [MinimalQuestion.model_validate, h]⟩
  · intro kvs s hs hc
    exact ⟨"question_context_html: input should be a valid string",
      by simp [MinimalQuestion.model_validate, hs, hc]⟩
  · intro kvs s hs hc
    simp [MinimalQuestion.model_validate, hs, hc]
  · intro k v kvs hk1 hk2
    simp [MinimalQuestion.model_validate, JsonObj.lookup,
      if_neg hk1, if_neg hk2]

/-- Witness for C6: concrete validations — stem-only entry succeeds with
defaulted context, null context fails, missing stem fails, an extra key is
dropped. -/
theorem minimal_question_validation_witness :
    MinimalQuestion.model_validate
        (.obj (.cons "question_stem_html" (.str "<p>Q</p>") .nil)) = .ok ⟨"", "<p>Q</p>"⟩ ∧
    (∃ e, MinimalQuestion.model_validate
        (.obj (.cons "question_stem_html" (.str "<p>Q</p>")
          (.cons "question_context_html" .null .nil))) = .error e) ∧
    (∃ e, MinimalQuestion.model_validate (.obj .nil) = .error e) ∧
    MinimalQuestion.model_validate
        (.obj (.cons "surprise" (.num 3)
          (.cons "question_stem_html" (.str "<p>Q</p>") .nil))) =
      MinimalQuestion.model_validate
        (.obj (.cons "question_stem_html" (.str "<p>Q</p>") .nil)) := by
  refine ⟨?_, ?_, ?_, ?_⟩
  · exact minimal_question_validation.2.2.2.1
      (.cons "question_stem_html" (.str "<p>Q</p>") .nil) "<p>Q</p>" rfl rfl
  · exact minimal_question_validation.2.2.1
      (.cons "question_stem_html" (.str "<p>Q</p>")
        (.cons "question_context_html" .null .nil)) "<p>Q</p>" rfl rfl
  · exact minimal_question_validation.1 .nil rfl
  · exact minimal_question_validation.2.2.2.2 "surprise" (.num 3)
      (.cons "question_stem_html" (.str "<p>Q</p>") .nil)
      (by decide) (by decide)

/-! ## MKSAP correctness detection (`ui/parsing.py`, `_parse_mksap_content`) -/

/-- One `div.option` node of an MKSAP document, as the parser reads it: the
option text, the letter extracted from `div.bubble, span.letter`, and the
node's CSS class list. -/
structure MkOptionNode where
  text : String
  letter : String
  classes : List String
deriving DecidableEq, Repr

/-- One entry of the `answers` list built by `_parse_mksap_content`
(parsing.py lines 182-184), restricted to the fields the correctness logic
reads and writes. -/
structure MkAnswer where
  text : String
  letter : String
  is_correct : Bool
deriving DecidableEq, Repr

/-- Initial answer construction (parsing.py lines 161-184): correctness comes
from the CSS class `r_a` on the option node. -/
def mksapBuildAnswer (o : MkOptionNode) : MkAnswer :=
  { text := o.text, letter := o.letter, is_correct := o.classes.contains "r_a" }

/-- `re.search(r'Correct Answer:\s*([A-Z])', text)`: try to match the pattern
at the head of the character list — the literal `Correct Answer:`, then
greedily skipped whitespace, then one uppercase letter (captured). -/
def matchCorrectAnswerAt (cs : List Char) : Option Char :=
  if ("Correct Answer:".toList).isPrefixOf cs then
    match (cs.drop ("Correct Answer:".toList).length).dropWhile Char.isWhitespace with
    | c :: _ => if 'A' ≤ c ∧ c ≤ 'Z' then some c else none
    | [] => none
  else
    none

/-- `re.search` scans left to right for the first position where the whole
pattern matches. -/
def findCorrectAnswer : List Char → Option Char
  | [] => none
  | c :: cs =>
    match matchCorrectAnswerAt (c :: cs) with
    | some l => some l
    | none => findCorrectAnswer cs

/-- The explanation-scanning fallback of `_parse_mksap_content` (parsing.py
lines 186-201): only when an explanation container was found, and only when no
answer is already marked correct, scan the explanation text for
`Correct Answer: <LETTER>` and mark every answer whose letter equals the
captured letter. -/
def mksapApplyFallback (answers : List MkAnswer) (explanationText : Option String) :
    List MkAnswer :=
  match explanationText with
  | none => answers
  | some t =>
    if answers.any (fun a => a.is_correct) then
      answers
    else
      match findCorrectAnswer t.toList with
      | none => answers
      | some l =>
        answers.map (fun a =>
          if a.letter = String.singleton l then { a with is_correct := true } else a)

/-- The correctness-relevant slice of `_parse_mksap_content`: build one answer
per option node, then apply the explanation fallback. -/
def mksapAnswers (options : List MkOptionNode) (explanationText : Option String) :
    List MkAnswer :=
  mksapApplyFallback (options.map mksapBuildAnswer) explanationText

/-- C8: when no option carries the `r_a` correctness class and the explanation
text yields a `Correct Answer: <LETTER>` match, exactly the options whose
extracted letter equals that letter are marked correct; when some option
already carries the class, the fallback is not applied and the class-derived
flags stand. -/
theorem mksap_correct_answer_fallback :
    (∀ (options : List MkOptionNode) (t : String) (l : Char),
        (∀ o ∈ options, o.classes.contains "r_a" = false) →
        findCorrectAnswer t.toList = some l →
        mksapAnswers options (some t) =
          options.map (fun o =>
            { text := o.text, letter := o.letter,
              is_correct := o.letter = String.singleton l })) ∧
    (∀ (options : List MkOptionNode) (explanationText : Option String),
        (∃ o ∈ options, o.classes.contains "r_a" = true) →
        mksapAnswers options explanationText = options.map mksapBuildAnswer) := by
  have hany_map : ∀ options : List MkOptionNode,
      ((options.map mksapBuildAnswer).any fun a => a.is_correct) =
        options.any fun o => o.classes.contains "r_a" := by
    intro options
    induction options with
    | nil => rfl
    | cons o os ih => simp [mksapBuildAnswer, List.any_cons, ih]
  constructor
  · intro options t l hnone hfind
    unfold mksapAnswers mksapApplyFallback
    have hany : ((options.map mksapBuildAnswer).any fun a => a.is_correct) = false := by
      rw [hany_map, List.any_eq_false]
      intro o ho
      simpa using hnone o ho
    rw [hany]
    simp only [Bool.false_eq_true, if_false, hfind]
    rw [List.map_map]
    apply List.map_congr_left
    intro o ho
    have hr : "r_a" ∉ o.classes := by simpa using hnone o ho
    by_cases hl : o.letter = String.singleton l
    · simp [mksapBuildAnswer, Function.comp, hl, hr]
    · simp [mksapBuildAnswer, Function.comp, hl, hr]
  · intro options explanationText hsome
    unfold mksapAnswers mksapApplyFallback
    match explanationText with
    | none => rfl
    | some t =>
      have hany : ((options.map mksapBuildAnswer).any fun a => a.is_correct) = true := by
        rw [hany_map, List.any_eq_true]
        obtain ⟨o, ho, hr⟩ := hsome
        exact ⟨o, ho, hr⟩
      rw [hany]
      simp

/-- Witness for C8: a document whose options A/B/C carry no correctness class
and whose explanation reads `Correct Answer: C` marks exactly the option
lettered `C`; a document where option B carries `r_a` keeps its class-derived
marking untouched by the explanation. -/
theorem mksap_correct_answer_fallback_witness :
    mksapAnswers
        [⟨"ans a", "A", ["option"]⟩, ⟨"ans b", "B", ["option"]⟩,
         ⟨"ans c", "C", ["option"]⟩]
        (some "The correct choice is below. Correct Answer: C because reasons.") =
      [⟨"ans a", "A", false⟩, ⟨"ans b", "B", false⟩, ⟨"ans c", "C", true⟩] ∧
    mksapAnswers
        [⟨"ans a", "A", ["option"]⟩, ⟨"ans b", "B", ["option", "r_a"]⟩]
        (some "Correct Answer: A") =
      [⟨"ans a", "A", false⟩, ⟨"ans b", "B", true⟩] := by
  constructor
  · have h := mksap_correct_answer_fallback.1
      [⟨"ans a", "A", ["option"]⟩, ⟨"ans b", "B", ["option"]⟩, ⟨"ans c", "C", ["option"]⟩]
      "The correct choice is below. Correct Answer: C because reasons." 'C'
      (by decide) (by decide)
    rw [h]
    decide
  · have h := mksap_correct_answer_fallback.2
      [⟨"ans a", "A", ["option"]⟩, ⟨"ans b", "B", ["option", "r_a"]⟩]
      (some "Correct Answer: A")
      ⟨⟨"ans b", "B", ["option", "r_a"]⟩, by decide, by decide⟩
    rw [h]
    decide

/-! ## HTML cleaner (`ui/parsing.py`, `HtmlCleaner._clean_and_rebuild_html`) -/

mutual
/-- A parsed DOM subtree, abstracting BeautifulSoup's `PageElement`:
`text` is a `NavigableString`, `tag` a `Tag` with name, attributes and
ordered children. -/
inductive HNode where
  | text : String → HNode
  | tag : String → List (String × String) → HNodeList → HNode

inductive HNodeList where
  | nil : HNodeList
  | cons : HNode → HNodeList → HNodeList
end

/-- `HtmlCleaner._is_significant_tag` (parsing.py lines 25-30). -/
def isSignificantTag (name : String) : Bool :=
  ["p", "ul", "ol", "li", "br", "strong", "em", "u", "b", "i",
   "h1", "h2", "h3", "table", "tr", "td", "th", "thead", "tbody"].contains name

/-- `any(child.name in ['p', 'ul', 'ol', 'div'] for child in
element.find_all(recursive=False))` (parsing.py line 62): direct child tags
only, text nodes are invisible to `find_all`. -/
def hasBlockChild : HNodeList → Bool
  | .nil => false
  | .cons (.tag n _ _) rest => ["p", "ul", "ol", "div"].contains n || hasBlockChild rest
  | .cons (.text _) rest => hasBlockChild rest

/-- Model of `urllib.parse.urljoin`, restricted to the cases the cleaner
meets: an absolute URL (with a `scheme://`) is returned unchanged, a
scheme-relative `//host/...` URL inherits the base's scheme, a root-relative
`/...` path is resolved against the base's origin, and a plain relative path
replaces everything after the last `/` of the base.  (`.`/`..` segment
normalization is not modelled.) -/
def urljoin (base url : String) : String :=
  if (strSplitOn url ':').length ≥ 2 ∧ strStartsWith (strDrop url ((strSplitOn url ':').headD "").length) "://" then
    url
  else if strStartsWith url "//" then
    match strSplitOn base ':' with
    | scheme :: _ :: _ => scheme ++ ":" ++ url
    | _ => url
  else if strStartsWith url "/" then
    (match strSplitOn base ':' with
     | scheme :: rest :: _ =>
        scheme ++ "://" ++ ((strSplitOn (strDrop (String.mk rest.toList) 2) '/').headD "")
     | _ => "") ++ url
  else if url = "" then
    base
  else
    String.mk ((base.toList.reverse.dropWhile (fun c => c ≠ '/')).reverse) ++ url

mutual
/-- `HtmlCleaner._clean_and_rebuild_html` (parsing.py lines 32-73), with the
mutable `self.images` list threaded as explicit state.  Text nodes pass
through verbatim; `<img>` is special-cased (dropped without `src`, otherwise
resolved, deduplicated into the image list and re-emitted minimally);
non-significant tags are unwrapped, re-wrapped in a `<div>` when a direct
child is block-level; significant tags are re-emitted, lists with indentation
styling. -/
def cleanNode (base : String) (images : List String) : HNode → String × List String
  | .text s => (s, images)
  | .tag name attrs children =>
    if name = "img" then
      match attrs.lookup "src" with
      | some src =>
        let abs_url := urljoin base src
        let images' := if images.contains abs_url then images else images ++ [abs_url]
        ("<img src=\"" ++ abs_url ++ "\" style=\"max-width: 100%; height: auto;\" />",
         images')
      | none => ("", images)
    else if isSignificantTag name then
      let (children_html, images') := cleanList base images children
      if name = "ul" ∨ name = "ol" then
        ("<" ++ name ++ " style=\"margin-left: 20px; padding-left: 10px;\">" ++
           children_html ++ "</" ++ name ++ ">", images')
      else
        ("<" ++ name ++ ">" ++ children_html ++ "</" ++ name ++ ">", images')
    else
      let (content, images') := cleanList base images children
      if hasBlockChild children then
        ("<div>" ++ content ++ "</div>", images')
      else
        (content, images')

/-- `"".join(self._clean_and_rebuild_html(child) for child in
element.contents)`: children cleaned left to right, the image list threaded
through in order. -/
def cleanList (base : String) (images : List String) : HNodeList → String × List String
  | .nil => ("", images)
  | .cons c rest =>
    let (h, images') := cleanNode base images c
    let (hs, images'') := cleanList base images' rest
    (h ++ hs, images'')
end

/-- C9: an `<img>` without `src` is dropped entirely (no output, no image
entry); an `<img>` with `src` resolves it against the base URL, appends the
absolute URL to the image list only when not already present (first-seen
dedup), and re-emits a minimal `<img>` with the absolute URL and responsive
sizing; in particular `src="image.jpg"` under base
`"http://example.com/base/"` yields `"http://example.com/base/image.jpg"` in
both the output HTML and the images list. -/
theorem html_cleaner_img_handling :
    (∀ (base : String) (images : List String) (attrs : List (String × String))
        (children : HNodeList),
        attrs.lookup "src" = none →
        cleanNode base images (.tag "img" attrs children) = ("", images)) ∧
    (∀ (base : String) (images : List String) (attrs : List (String × String))
        (children : HNodeList) (src : String),
        attrs.lookup "src" = some src →
        cleanNode base images (.tag "img" attrs children) =
          ("<img src=\"" ++ urljoin base src ++
             "\" style=\"max-width: 100%; height: auto;\" />",
           if images.contains (urljoin base src) then images
           else images ++ [urljoin base src])) ∧
    cleanNode "http://example.com/base/" [] (.tag "img" [("src", "image.jpg")] .nil) =
      ("<img src=\"http://example.com/base/image.jpg\" style=\"max-width: 100%; height: auto;\" />",
       ["http://example.com/base/image.jpg"]) := by
  refine ⟨?_, ?_, by decide⟩
  · intro base images attrs children h
    simp [cleanNode, h]
  · intro base images attrs children src h
    simp [cleanNode, h]

/-- Witness for C9: the theorem applied to concrete `<img>` nodes — one
without `src`, one whose URL is new, and one whose URL is already in the
list (deduplicated). -/
theorem html_cleaner_img_handling_witness :
    cleanNode "http://example.com/base/" ["http://x/"] (.tag "img" [("alt", "a")] .nil) =
      ("", ["http://x/"]) ∧
    cleanNode "http://example.com/base/" ["http://example.com/base/image.jpg"]
        (.tag "img" [("src", "image.jpg")] .nil) =
      ("<img src=\"http://example.com/base/image.jpg\" style=\"max-width: 100%; height: auto;\" />",
       ["http://example.com/base/image.jpg"]) := by
  constructor
  · exact html_cleaner_img_handling.1 "http://example.com/base/" ["http://x/"]
      [("alt", "a")] .nil rfl
  · have h := html_cleaner_img_handling.2.1 "http://example.com/base/"
      ["http://example.com/base/image.jpg"] [("src", "image.jpg")] .nil "image.jpg" rfl
    rw [h]
    decide

/-! ## Persistence model (`persistence/repository.py`, `QuestionRepository`)

The SQLAlchemy table classes (`Source`, `Question`, `Media`) are not under
`src/` (only `repository.py`, `ingestion.py` and the tests use them), so the
row shapes are modelled from the spec's §3 data model plus the fields the
repository and ingestion code read and write.  Session state is an explicit
`Db` record; a `flush`/insert is one write. -/

/-- A `Source` row: identity is the unique `name` (spec §3). -/
structure Source where
  source_id : Nat
  name : String
deriving DecidableEq, Repr

/-- A `Question` row, modelled from spec §3 (`PersistedQuestion`) and the
fields ingestion/repository touch: identity `(source_id,
source_question_key)`, raw payloads, status, optional clean-slate fields,
nullable self-referencing `parent_id`, and `created_at` (an instant, modelled
as seconds). -/
structure Question where
  question_id : Nat
  source_id : Nat
  source_question_key : String
  raw_html : String
  raw_metadata_json : String
  status : Option String
  extraction_path : Option String
  question_context_html : Option String
  question_stem_html : Option String
  parent_id : Option Nat
  created_at : Int
deriving DecidableEq, Repr

/-- A `Media` row (spec §3). -/
structure Media where
  media_id : Nat
  question_id : Nat
  media_role : String
  media_type : Option String
  mime_type : String
  relative_path : String
deriving DecidableEq, Repr

/-- The database session state: tables plus autoincrement counters. -/
structure Db where
  sources : List Source
  questions : List Question
  media : List Media
  nextSourceId : Nat
  nextQuestionId : Nat
  nextMediaId : Nat
deriving DecidableEq, Repr

/-- A fresh database (SQLite autoincrement ids start at 1). -/
def Db.empty : Db := ⟨[], [], [], 1, 1, 1⟩

/-- The `question_data` dict passed to `QuestionRepository.add_question`
(ingestion.py lines 310-317 plus the two optional clean-slate keys).
`none` on an optional field means the key is absent from the dict; the four
required keys are always present in every call site, so the `ValueError`
branch of `add_question` cannot fire and is not modelled. -/
structure QuestionData where
  source_id : Nat
  source_question_key : String
  raw_html : String
  raw_metadata_json : String
  status : Option String := none
  extraction_path : Option String := none
  question_context_html : Option String := none
  question_stem_html : Option String := none
deriving DecidableEq, Repr

/-- `QuestionRepository.get_or_create_source` (repository.py lines 26-47):
find the source by name, else insert (one flush-write, reported as the last
component). -/
def get_or_create_source (db : Db) (name : String) : Db × Source × Nat :=
  match db.sources.find? (fun s => s.name == name) with
  | some s => (db, s, 0)
  | none =>
    let s : Source := ⟨db.nextSourceId, name⟩
    ({ db with sources := db.sources ++ [s], nextSourceId := db.nextSourceId + 1 }, s, 1)

/-- `QuestionRepository.get_question_by_source_key` (repository.py lines
139-155). -/
def get_question_by_source_key (db : Db) (source_id : Nat) (source_question_key : String) :
    Option Question :=
  db.questions.find? (fun q =>
    q.source_id == source_id && q.source_question_key == source_question_key)

/-- Overwrite semantics of `add_question`'s update loop: a key present in the
dict overwrites the column, an absent key leaves it unchanged. -/
def overwriteField (supplied old : Option String) : Option String :=
  match supplied with
  | some v => some v
  | none => old

/-- `QuestionRepository.add_question` (repository.py lines 49-95): look up by
`(source_id, source_question_key)`; if absent insert a new row (`created_at`
filled from the column default, passed here as `now`); if present, set every
supplied non-identity key on the existing row and return it. -/
def add_question (db : Db) (qd : QuestionData) (now : Int) : Db × Question :=
  match db.questions.find? (fun q =>
      q.source_id == qd.source_id && q.source_question_key == qd.source_question_key) with
  | none =>
    let q : Question :=
      { question_id := db.nextQuestionId
        source_id := qd.source_id
        source_question_key := qd.source_question_key
        raw_html := qd.raw_html
        raw_metadata_json := qd.raw_metadata_json
        status := qd.status
        extraction_path := qd.extraction_path
        question_context_html := qd.question_context_html
        question_stem_html := qd.question_stem_html
        parent_id := none
        created_at := now }
    ({ db with questions := db.questions ++ [q], nextQuestionId := db.nextQuestionId + 1 }, q)
  | some q =>
    let q' : Question :=
      { q with
        raw_html := qd.raw_html
        raw_metadata_json := qd.raw_metadata_json
        status := overwriteField qd.status q.status
        extraction_path := overwriteField qd.extraction_path q.extraction_path
        question_context_html := overwriteField qd.question_context_html q.question_context_html
        question_stem_html := overwriteField qd.question_stem_html q.question_stem_html }
    ({ db with questions := db.questions.map (fun p =>
        if p.question_id == q.question_id then q' else p) }, q')

/-- The `media_data` dict of `ingest_question` (ingestion.py lines 365-370). -/
structure MediaData where
  media_role : String
  media_type : Option String := none
  mime_type : String
  relative_path : String
deriving DecidableEq, Repr

/-- `QuestionRepository.add_media_to_question` (repository.py lines 97-125). -/
def add_media_to_question (db : Db) (question_id : Nat) (md : MediaData) : Db × Media :=
  let m : Media :=
    { media_id := db.nextMediaId
      question_id := question_id
      media_role := md.media_role
      media_type := md.media_type
      mime_type := md.mime_type
      relative_path := md.relative_path }
  ({ db with media := db.media ++ [m], nextMediaId := db.nextMediaId + 1 }, m)

/-! ## Ingestion orchestrator (`ingestion.ingest_question`) -/

/-- `pathlib.Path.suffix` for ordinary `name_imgN.ext` filenames: the final
dot-extension including the dot, empty when the name has no dot. -/
def fileSuffix (name : String) : String :=
  match strSplitOn name '.' with
  | [] => ""
  | [_] => ""
  | parts => "." ++ parts.getLastD ""

/-- `ingestion.get_mime_type` (ingestion.py lines 217-234). -/
def get_mime_type (file_name : String) : String :=
  let ext := (fileSuffix file_name).toLower
  if ext = ".jpg" then "image/jpeg"
  else if ext = ".jpeg" then "image/jpeg"
  else if ext = ".png" then "image/png"
  else if ext = ".gif" then "image/gif"
  else if ext = ".webp" then "image/webp"
  else "application/octet-stream"

/-- A failure of `call_extraction_llm`, as caught by the orchestrator
(ingestion.py lines 328-334): HTTP transport, JSON decode, schema validation,
or missing configuration. -/
inductive LlmFailure where
  | httpError : LlmFailure
  | jsonDecodeError : LlmFailure
  | validationFailure : LlmFailure
  | configError : LlmFailure
deriving DecidableEq, Repr

/-- The extraction file pair plus discovered siblings, as `ingest_question`
sees them: `metadata` is the parsed content of the JSON file (`json.load`),
`html` the text of the HTML file (`f.read()`), `mediaFiles` the sorted result
of `find_media_files`, and `extractionPath` the derived
`str(json_path.parent / json_path.stem)`. -/
structure ExtractionInput where
  metadata : Json
  html : String
  mediaFiles : List String
  extractionPath : String

/-- Effect counters for one `ingest_question` call: `fileReads` counts the
two `open(...)` reads at the top of the function; `writes` counts every
repository flush-insert and every media file copy. -/
structure IngestLog where
  fileReads : Nat
  writes : Nat
deriving DecidableEq, Repr

/-- The media loop of `ingest_question` (ingestion.py lines 354-373): for
each discovered file, `copy_media_to_storage` (one file write) builds
`{source_name}/{question_key}_img{index}{ext}` and a Media row is inserted
(one flush-write); returns the new state and the number of writes. -/
def ingestMedia (db : Db) (question_id : Nat) (source_name question_key : String)
    (idx : Nat) : List String → Db × Nat
  | [] => (db, 0)
  | file :: rest =>
    let relative_path :=
      source_name ++ "/" ++ question_key ++ "_img" ++ toString idx ++ fileSuffix file
    let md : MediaData :=
      { media_role := "image", media_type := some "question_image",
        mime_type := get_mime_type file, relative_path := relative_path }
    let (db', _) := add_media_to_question db question_id md
    let (db'', w) := ingestMedia db' question_id source_name question_key (idx + 1) rest
    (db'', w + 2)

/-- The clean-slate field computation of `ingest_question` (ingestion.py
lines 319-348): the caller-supplied batch wins; else, when LLM extraction is
enabled, the LLM oracle is consulted and any failure is caught and treated as
no-extraction; the first entry of a non-empty resulting batch populates the
two fields, otherwise they stay absent (`none`). -/
def ingestCleanFields (minimal_data : Option MinimalQuestionBatch)
    (enable_llm_extraction : Bool)
    (llm : String → Except LlmFailure MinimalQuestionBatch)
    (html_content : String) : Option String × Option String :=
  let extracted_minimal_data :=
    if enable_llm_extraction && minimal_data.isNone then
      match llm html_content with
      | .ok batch => some batch
      | .error _ => none
    else
      minimal_data
  match extracted_minimal_data with
  | some batch =>
    match batch.questions with
    | q :: _ => (some q.question_context_html, some q.question_stem_html)
    | [] => (none, none)
  | none => (none, none)

/-- `ingestion.ingest_question` (ingestion.py lines 269-373).  Both files are
read first (lines 289-295, counted in `fileReads`); then the source row is
found or created and the natural key looked up — on a hit the function
returns at once.  Otherwise the base `question_data` is built; when LLM
extraction is enabled and no caller batch was supplied, the LLM is consulted
through the oracle `llm`, any failure being caught and treated as
no-extraction; a non-empty resulting batch contributes its first entry's two
clean-slate fields; the question is inserted and the media loop runs. -/
def ingest_question (db : Db) (input : ExtractionInput)
    (source_name question_key : String)
    (minimal_data : Option MinimalQuestionBatch)
    (enable_llm_extraction : Bool)
    (llm : String → Except LlmFailure MinimalQuestionBatch)
    (now : Int) : Db × IngestLog :=
  let metadata := input.metadata
  let html_content := input.html
  let fileReads := 2
  let (db1, source, sourceWrites) := get_or_create_source db source_name
  match get_question_by_source_key db1 source.source_id question_key with
  | some _ => (db1, { fileReads := fileReads, writes := sourceWrites })
  | none =>
    let base : QuestionData :=
      { source_id := source.source_id
        source_question_key := question_key
        raw_html := html_content
        raw_metadata_json := Json.dumps metadata
        status := some "extracted"
        extraction_path := some input.extractionPath }
    let cleanFields := ingestCleanFields minimal_data enable_llm_extraction llm html_content
    let qd := { base with
      question_context_html := cleanFields.1
      question_stem_html := cleanFields.2 }
    let (db2, question) := add_question db1 qd now
    let (db3, mediaWrites) :=
      ingestMedia db2 question.question_id source_name question_key 0 input.mediaFiles
    (db3, { fileReads := fileReads, writes := sourceWrites + 1 + mediaWrites })

/-- The media loop only appends Media rows: sources and questions are
untouched. -/
theorem ingestMedia_preserves (db : Db) (qid : Nat) (sn qk : String) (idx : Nat)
    (files : List String) :
    (ingestMedia db qid sn qk idx files).1.questions = db.questions ∧
    (ingestMedia db qid sn qk idx files).1.sources = db.sources := by
  induction files generalizing db idx with
  | nil => exact ⟨rfl, rfl⟩
  | cons f rest ih =>
    simpa [ingestMedia, add_media_to_question] using ih _ (idx + 1)

/-- Helper: a fresh ingestion (source row present, natural key absent)
appends exactly one question row, carrying the raw payloads and the computed
clean-slate fields, and leaves the source table unchanged. -/
theorem ingest_question_fresh_insert (db : Db) (input : ExtractionInput)
    (sn qk : String) (md : Option MinimalQuestionBatch) (el : Bool)
    (llm : String → Except LlmFailure MinimalQuestionBatch) (now : Int) (s : Source)
    (hs : db.sources.find? (fun src => src.name == sn) = some s)
    (hq : get_question_by_source_key db s.source_id qk = none) :
    (ingest_question db input sn qk md el llm now).1.questions =
      db.questions ++
        [{ question_id := db.nextQuestionId
           source_id := s.source_id
           source_question_key := qk
           raw_html := input.html
           raw_metadata_json := Json.dumps input.metadata
           status := some "extracted"
           extraction_path := some input.extractionPath
           question_context_html := (ingestCleanFields md el llm input.html).1
           question_stem_html := (ingestCleanFields md el llm input.html).2
           parent_id := none
           created_at := now }] ∧
    (ingest_question db input sn qk md el llm now).1.sources = db.sources := by
  have hq' : db.questions.find? (fun q =>
      q.source_id == s.source_id && q.source_question_key == qk) = none := hq
  simp only [ingest_question, get_or_create_source, hs, get_question_by_source_key,
    hq', add_question]
  constructor
  · rw [(ingestMedia_preserves _ _ _ _ _ _).1]
  · rw [(ingestMedia_preserves _ _ _ _ _ _).2]

/-- Helper: a fresh ingestion where the source row does not exist yet first
creates the source, then inserts the question under the new source id. -/
theorem ingest_question_fresh_insert_new_source (db : Db) (input : ExtractionInput)
    (sn qk : String) (md : Option MinimalQuestionBatch) (el : Bool)
    (llm : String → Except LlmFailure MinimalQuestionBatch) (now : Int)
    (hs : db.sources.find? (fun src => src.name == sn) = none)
    (hq : get_question_by_source_key db db.nextSourceId qk = none) :
    (ingest_question db input sn qk md el llm now).1.questions =
      db.questions ++
        [{ question_id := db.nextQuestionId
           source_id := db.nextSourceId
           source_question_key := qk
           raw_html := input.html
           raw_metadata_json := Json.dumps input.metadata
           status := some "extracted"
           extraction_path := some input.extractionPath
           question_context_html := (ingestCleanFields md el llm input.html).1
           question_stem_html := (ingestCleanFields md el llm input.html).2
           parent_id := none
           created_at := now }] ∧
    (ingest_question db input sn qk md el llm now).1.sources =
      db.sources ++ [⟨db.nextSourceId, sn⟩] := by
  have hq' : db.questions.find? (fun q =>
      q.source_id == db.nextSourceId && q.source_question_key == qk) = none := hq
  simp only [ingest_question, get_or_create_source, hs, get_question_by_source_key,
    hq', add_question]
  constructor
  · rw [(ingestMedia_preserves _ _ _ _ _ _).1]
  · rw [(ingestMedia_preserves _ _ _ _ _ _).2]

/-- An LLM oracle that always fails with a transport error (an HTTP-down
endpoint). -/
def llmUnavailable : String → Except LlmFailure MinimalQuestionBatch :=
  fun _ => .error .httpError

/-- C3: a newly ingested question (natural key not yet persisted) is stored
with `raw_html` equal to the source HTML text exactly, whatever the
clean-slate configuration — first conjunct for an existing source row, second
for a source created by this very ingestion. -/
theorem ingest_question_raw_html_roundtrip :
    (∀ (db : Db) (input : ExtractionInput) (sn qk : String)
        (md : Option MinimalQuestionBatch) (el : Bool)
        (llm : String → Except LlmFailure MinimalQuestionBatch) (now : Int) (s : Source),
        db.sources.find? (fun src => src.name == sn) = some s →
        get_question_by_source_key db s.source_id qk = none →
        ∃ q, get_question_by_source_key
            (ingest_question db input sn qk md el llm now).1 s.source_id qk = some q ∧
          q.raw_html = input.html) ∧
    (∀ (db : Db) (input : ExtractionInput) (sn qk : String)
        (md : Option MinimalQuestionBatch) (el : Bool)
        (llm : String → Except LlmFailure MinimalQuestionBatch) (now : Int),
        db.sources.find? (fun src => src.name == sn) = none →
        get_question_by_source_key db db.nextSourceId qk = none →
        ∃ q, get_question_by_source_key
            (ingest_question db input sn qk md el llm now).1 db.nextSourceId qk = some q ∧
          q.raw_html = input.html) := by
  constructor
  · intro db input sn qk md el llm now s hs hq
    obtain ⟨hQ, _⟩ := ingest_question_fresh_insert db input sn qk md el llm now s hs hq
    have hq' : db.questions.find? (fun q =>
        q.source_id == s.source_id && q.source_question_key == qk) = none := hq
    refine ⟨{ question_id := db.nextQuestionId
              source_id := s.source_id
              source_question_key := qk
              raw_html := input.html
              raw_metadata_json := Json.dumps input.metadata
              status := some "extracted"
              extraction_path := some input.extractionPath
              question_context_html := (ingestCleanFields md el llm input.html).1
              question_stem_html := (ingestCleanFields md el llm input.html).2
              parent_id := none
              created_at := now }, ?_, rfl⟩
    simp [get_question_by_source_key, hQ, List.find?_append, hq']
  · intro db input sn qk md el llm now hs hq
    obtain ⟨hQ, _⟩ :=
      ingest_question_fresh_insert_new_source db input sn qk md el llm now hs hq
    have hq' : db.questions.find? (fun q =>
        q.source_id == db.nextSourceId && q.source_question_key == qk) = none := hq
    refine ⟨{ question_id := db.nextQuestionId
              source_id := db.nextSourceId
              source_question_key := qk
              raw_html := input.html
              raw_metadata_json := Json.dumps input.metadata
              status := some "extracted"
              extraction_path := some input.extractionPath
              question_context_html := (ingestCleanFields md el llm input.html).1
              question_stem_html := (ingestCleanFields md el llm input.html).2
              parent_id := none
              created_at := now }, ?_, rfl⟩
    simp [get_question_by_source_key, hQ, List.find?_append, hq']

/-- Witness for C3: ingesting malformed/unclosed-tag HTML from an empty
database round-trips the HTML text exactly. -/
theorem ingest_question_raw_html_roundtrip_witness :
    ∃ q, get_question_by_source_key
        (ingest_question Db.empty ⟨.obj .nil, "<div>Broken HTML", [], "extractions/x"⟩
          "MKSAP_19" "0" none false llmUnavailable 0).1 1 "0" = some q ∧
      q.raw_html = "<div>Broken HTML" :=
  ingest_question_raw_html_roundtrip.2 Db.empty
    ⟨.obj .nil, "<div>Broken HTML", [], "extractions/x"⟩
    "MKSAP_19" "0" none false llmUnavailable 0 rfl rfl

/-- C5: with LLM extraction enabled, no caller-supplied batch, and a failing
LLM call, the failure is caught, the clean-slate fields stay null, and the
base question record (status `"extracted"`, raw payloads intact) is still
inserted. -/
theorem ingest_question_llm_failure_inserts_base (db : Db) (input : ExtractionInput)
    (sn qk : String) (llm : String → Except LlmFailure MinimalQuestionBatch)
    (now : Int) (e : LlmFailure) (s : Source)
    (hs : db.sources.find? (fun src => src.name == sn) = some s)
    (hq : get_question_by_source_key db s.source_id qk = none)
    (hllm : llm input.html = .error e) :
    get_question_by_source_key
        (ingest_question db input sn qk none true llm now).1 s.source_id qk =
      some { question_id := db.nextQuestionId
             source_id := s.source_id
             source_question_key := qk
             raw_html := input.html
             raw_metadata_json := Json.dumps input.metadata
             status := some "extracted"
             extraction_path := some input.extractionPath
             question_context_html := none
             question_stem_html := none
             parent_id := none
             created_at := now } := by
  obtain ⟨hQ, _⟩ := ingest_question_fresh_insert db input sn qk none true llm now s hs hq
  have hcf : ingestCleanFields none true llm input.html = (none, none) := by
    simp [ingestCleanFields, hllm]
  rw [hcf] at hQ
  have hq' : db.questions.find? (fun q =>
      q.source_id == s.source_id && q.source_question_key == qk) = none := hq
  simp [get_question_by_source_key, hQ, List.find?_append, hq']

/-- Witness for C5: a concrete ingestion against an always-failing LLM
endpoint still inserts the base record with null clean-slate fields. -/
theorem ingest_question_llm_failure_inserts_base_witness :
    get_question_by_source_key
        (ingest_question ⟨[⟨1, "MKSAP"⟩], [], [], 2, 1, 1⟩
          ⟨.obj .nil, "<p>Test HTML content</p>", [], "extractions/x"⟩
          "MKSAP" "1" none true llmUnavailable 7).1 1 "1" =
      some ⟨1, 1, "1", "<p>Test HTML content</p>", "\x7b\x7d", some "extracted",
        some "extractions/x", none, none, none, 7⟩ :=
  ingest_question_llm_failure_inserts_base ⟨[⟨1, "MKSAP"⟩], [], [], 2, 1, 1⟩
    ⟨.obj .nil, "<p>Test HTML content</p>", [], "extractions/x"⟩
    "MKSAP" "1" llmUnavailable 7 .httpError ⟨1, "MKSAP"⟩ rfl rfl rfl

/-- C1 counterexample: the second call on an already-persisted pair is not
free of file reads — `ingest_question` opens and reads both files (two reads)
before it checks for existence. -/
theorem ingest_question_noop_counterexample :
    (ingest_question
        (ingest_question Db.empty
          ⟨.obj .nil, "<div>Test Content</div>", [], "extractions/t"⟩
          "Test_Source" "1" none false llmUnavailable 0).1
        ⟨.obj .nil, "<div>Test Content</div>", [], "extractions/t"⟩
        "Test_Source" "1" none false llmUnavailable 0).2.fileReads = 2 ∧
    ¬ (ingest_question
        (ingest_question Db.empty
          ⟨.obj .nil, "<div>Test Content</div>", [], "extractions/t"⟩
          "Test_Source" "1" none false llmUnavailable 0).1
        ⟨.obj .nil, "<div>Test Content</div>", [], "extractions/t"⟩
        "Test_Source" "1" none false llmUnavailable 0).2.fileReads = 0 := by
  constructor
  · decide
  · decide

/-- C1 (amended): when the natural key already has a persisted question, a
repeated `ingest_question` call re-reads the two files but performs zero
writes and returns the database unchanged; hence ingesting the same
(json, html) pair twice from an empty database yields exactly one persisted
question, the second call writing nothing. -/
theorem ingest_question_idempotent :
    (∀ (db : Db) (input : ExtractionInput) (sn qk : String)
        (md : Option MinimalQuestionBatch) (el : Bool)
        (llm : String → Except LlmFailure MinimalQuestionBatch) (now : Int)
        (s : Source) (q : Question),
        db.sources.find? (fun src => src.name == sn) = some s →
        get_question_by_source_key db s.source_id qk = some q →
        ingest_question db input sn qk md el llm now = (db, ⟨2, 0⟩)) ∧
    (∀ (input : ExtractionInput) (sn qk : String)
        (md : Option MinimalQuestionBatch) (el : Bool)
        (llm : String → Except LlmFailure MinimalQuestionBatch) (now now2 : Int),
        (ingest_question Db.empty input sn qk md el llm now).1.questions.length = 1 ∧
        ingest_question (ingest_question Db.empty input sn qk md el llm now).1
            input sn qk md el llm now2 =
          ((ingest_question Db.empty input sn qk md el llm now).1, ⟨2, 0⟩)) := by
  have noop : ∀ (db : Db) (input : ExtractionInput) (sn qk : String)
      (md : Option MinimalQuestionBatch) (el : Bool)
      (llm : String → Except LlmFailure MinimalQuestionBatch) (now : Int)
      (s : Source) (q : Question),
      db.sources.find? (fun src => src.name == sn) = some s →
      get_question_by_source_key db s.source_id qk = some q →
      ingest_question db input sn qk md el llm now = (db, ⟨2, 0⟩) := by
    intro db input sn qk md el llm now s q hs hq
    simp only [ingest_question, get_or_create_source, hs, hq]
  refine ⟨noop, ?_⟩
  intro input sn qk md el llm now now2
  obtain ⟨hQ, hS⟩ :=
    ingest_question_fresh_insert_new_source Db.empty input sn qk md el llm now rfl rfl
  constructor
  · rw [hQ]
    simp [Db.empty]
  · apply noop (ingest_question Db.empty input sn qk md el llm now).1 input sn qk md el
      llm now2 ⟨1, sn⟩
      { question_id := 1
        source_id := 1
        source_question_key := qk
        raw_html := input.html
        raw_metadata_json := Json.dumps input.metadata
        status := some "extracted"
        extraction_path := some input.extractionPath
        question_context_html := (ingestCleanFields md el llm input.html).1
        question_stem_html := (ingestCleanFields md el llm input.html).2
        parent_id := none
        created_at := now }
    · rw [hS]
      simp [Db.empty]
    · show (ingest_question Db.empty input sn qk md el llm now).1.questions.find? _ = _
      rw [hQ]
      simp [Db.empty, List.find?_append]

/-- Witness for C1: the amended theorem applied to a concrete pair — the
second call leaves the concrete database untouched and reports two file reads
and zero writes. -/
theorem ingest_question_idempotent_witness :
    ingest_question
        (ingest_question Db.empty
          ⟨.obj .nil, "<div>Test Content</div>", [], "extractions/t"⟩
          "Test_Source" "1" none false llmUnavailable 0).1
        ⟨.obj .nil, "<div>Test Content</div>", [], "extractions/t"⟩
        "Test_Source" "1" none false llmUnavailable 0 =
      ((ingest_question Db.empty
          ⟨.obj .nil, "<div>Test Content</div>", [], "extractions/t"⟩
          "Test_Source" "1" none false llmUnavailable 0).1, ⟨2, 0⟩) :=
  (ingest_question_idempotent.2
    ⟨.obj .nil, "<div>Test Content</div>", [], "extractions/t"⟩
    "Test_Source" "1" none false llmUnavailable 0 0).2

/-- C10: when `add_question` is called with a `(source_id,
source_question_key)` pair matching an existing row, no new row is created
and the existing row is returned: its identity fields (and the columns no key
was supplied for, such as `created_at` and `parent_id`) are unchanged, while
every supplied non-identity key overwrites the corresponding column. -/
theorem add_question_upsert_frame (db : Db) (qd : QuestionData) (now : Int)
    (q0 : Question)
    (h : db.questions.find? (fun q =>
        q.source_id == qd.source_id &&
        q.source_question_key == qd.source_question_key) = some q0) :
    (add_question db qd now).1.questions.length = db.questions.length ∧
    (add_question db qd now).2.question_id = q0.question_id ∧
    (add_question db qd now).2.source_id = q0.source_id ∧
    (add_question db qd now).2.source_question_key = q0.source_question_key ∧
    (add_question db qd now).2.created_at = q0.created_at ∧
    (add_question db qd now).2.parent_id = q0.parent_id ∧
    (add_question db qd now).2.raw_html = qd.raw_html ∧
    (add_question db qd now).2.raw_metadata_json = qd.raw_metadata_json ∧
    (∀ v, qd.status = some v → (add_question db qd now).2.status = some v) ∧
    (qd.status = none → (add_question db qd now).2.status = q0.status) ∧
    (∀ v, qd.extraction_path = some v →
        (add_question db qd now).2.extraction_path = some v) ∧
    (qd.extraction_path = none →
        (add_question db qd now).2.extraction_path = q0.extraction_path) ∧
    (∀ v, qd.question_context_html = some v →
        (add_question db qd now).2.question_context_html = some v) ∧
    (qd.question_context_html = none →
        (add_question db qd now).2.question_context_html = q0.question_context_html) ∧
    (∀ v, qd.question_stem_html = some v →
        (add_question db qd now).2.question_stem_html = some v) ∧
    (qd.question_stem_html = none →
        (add_question db qd now).2.question_stem_html = q0.question_stem_html) ∧
    (add_question db qd now).2 ∈ (add_question db qd now).1.questions := by
  have hmem : q0 ∈ db.questions := List.mem_of_find?_eq_some h
  simp only [add_question, h]
  refine ⟨by simp, trivial, trivial, trivial, trivial, trivial, trivial, trivial,
    fun v hv => by simp [overwriteField, hv],
    fun hv => by simp [overwriteField, hv],
    fun v hv => by simp [overwriteField, hv],
    fun hv => by simp [overwriteField, hv],
    fun v hv => by simp [overwriteField, hv],
    fun hv => by simp [overwriteField, hv],
    fun v hv => by simp [overwriteField, hv],
    fun hv => by simp [overwriteField, hv],
    ?_⟩
  refine List.mem_map.mpr ⟨q0, hmem, ?_⟩
  simp

/-- Witness for C10: a concrete repeated-identity upsert — one row before and
after, status overwritten by the supplied key, context and `created_at`
untouched because their keys are absent. -/
theorem add_question_upsert_frame_witness :
    (add_question
        ⟨[⟨1, "S"⟩], [⟨1, 1, "k", "old", "om", some "extracted", none, some "c", none, none, 5⟩],
          [], 2, 2, 1⟩
        { source_id := 1, source_question_key := "k", raw_html := "new",
          raw_metadata_json := "nm", status := some "parsed" } 9).1.questions.length = 1 ∧
    (add_question
        ⟨[⟨1, "S"⟩], [⟨1, 1, "k", "old", "om", some "extracted", none, some "c", none, none, 5⟩],
          [], 2, 2, 1⟩
        { source_id := 1, source_question_key := "k", raw_html := "new",
          raw_metadata_json := "nm", status := some "parsed" } 9).2.status = some "parsed" ∧
    (add_question
        ⟨[⟨1, "S"⟩], [⟨1, 1, "k", "old", "om", some "extracted", none, some "c", none, none, 5⟩],
          [], 2, 2, 1⟩
        { source_id := 1, source_question_key := "k", raw_html := "new",
          raw_metadata_json := "nm", status := some "parsed" } 9).2.question_context_html = some "c" ∧
    (add_question
        ⟨[⟨1, "S"⟩], [⟨1, 1, "k", "old", "om", some "extracted", none, some "c", none, none, 5⟩],
          [], 2, 2, 1⟩
        { source_id := 1, source_question_key := "k", raw_html := "new",
          raw_metadata_json := "nm", status := some "parsed" } 9).2.created_at = 5 := by
  have h := add_question_upsert_frame
    ⟨[⟨1, "S"⟩], [⟨1, 1, "k", "old", "om", some "extracted", none, some "c", none, none, 5⟩],
      [], 2, 2, 1⟩
    { source_id := 1, source_question_key := "k", raw_html := "new",
      raw_metadata_json := "nm", status := some "parsed" } 9
    ⟨1, 1, "k", "old", "om", some "extracted", none, some "c", none, none, 5⟩ rfl
  exact ⟨h.1, h.2.2.2.2.2.2.2.2.1 "parsed" rfl,
    h.2.2.2.2.2.2.2.2.2.2.2.2.2.1 rfl, h.2.2.2.2.1⟩

/-! ## Automatic grouping engine (spec §4.6)

The function `_group_question_automatically` is not under `src/`: it is
imported by `tests/test_grouping.py` from `scripts/extraction_server.py`,
where it does not appear.  The engine is therefore modelled from the spec. -/

/-- The *earliest-created* element of a candidate list (first-seen wins on
ties). -/
def pickEarliest (l : List Question) : Option Question :=
  l.foldl (fun acc p =>
    match acc with
    | none => some p
    | some b => if p.created_at < b.created_at then some p else acc) none

/-- Modelled from the spec: `_group_question_automatically` (§4.6), absent
from src.  Evaluated once for a freshly persisted parentless question Q:
search same-source questions with null `parent_id` and `created_at` in the
half-open window `[Q.created_at − 5min, Q.created_at)` (times in seconds,
5min = 300); if at least one candidate exists set `Q.parent_id` to the
earliest-created candidate, otherwise Q remains a root.  A question that
already has a parent is never re-parented (§3). -/
def group_question_automatically (db : Db) (qid : Nat) : Db :=
  match db.questions.find? (fun q => q.question_id == qid) with
  | none => db
  | some q =>
    if q.parent_id.isSome then db
    else
      let candidates := db.questions.filter (fun p =>
        p.source_id == q.source_id && p.parent_id.isNone &&
        decide (q.created_at - 300 ≤ p.created_at) && decide (p.created_at < q.created_at))
      match pickEarliest candidates with
      | none => db
      | some parent =>
        { db with questions := db.questions.map (fun p =>
            if p.question_id == qid then { p with parent_id := some parent.question_id }
            else p) }

/-- A question row as the grouping tests create them
(`tests/test_grouping.py`, `create_question`). -/
def mkTQ (id source_id : Nat) (key : String) (created_at : Int) (parent_id : Option Nat) :
    Question :=
  { question_id := id, source_id := source_id, source_question_key := key,
    raw_html := "<html></html>", raw_metadata_json := "\x7b\x7d", status := none,
    extraction_path := none, question_context_html := none, question_stem_html := none,
    parent_id := parent_id, created_at := created_at }

/-- A database holding two sources (ids 1 and 2) and the given questions. -/
def mkTDb (qs : List Question) (nextQ : Nat) : Db :=
  { sources := [⟨1, "MKSAP"⟩, ⟨2, "PeerPrep"⟩], questions := qs, media := [],
    nextSourceId := 3, nextQuestionId := nextQ, nextMediaId := 1 }

/-- C2: running the grouping step at each creation, same-source questions at
t, t+2min and t+3min all end up with the t-question as parent (not chained —
the t+2min question, having a parent, is not a candidate for the t+3min one);
a question at t+6min finds no candidate in `[t+1min, t+6min)` and stays
parentless; and a question from a different source within the window never
attaches. -/
theorem grouping_window_scenario (t : Int) :
    group_question_automatically (mkTDb [mkTQ 1 1 "q1" t none] 2) 1 =
      mkTDb [mkTQ 1 1 "q1" t none] 2 ∧
    group_question_automatically
        (mkTDb [mkTQ 1 1 "q1" t none, mkTQ 2 1 "q2" (t + 120) none] 3) 2 =
      mkTDb [mkTQ 1 1 "q1" t none, mkTQ 2 1 "q2" (t + 120) (some 1)] 3 ∧
    group_question_automatically
        (mkTDb [mkTQ 1 1 "q1" t none, mkTQ 2 1 "q2" (t + 120) (some 1),
                mkTQ 3 1 "q3" (t + 180) none] 4) 3 =
      mkTDb [mkTQ 1 1 "q1" t none, mkTQ 2 1 "q2" (t + 120) (some 1),
             mkTQ 3 1 "q3" (t + 180) (some 1)] 4 ∧
    group_question_automatically
        (mkTDb [mkTQ 1 1 "q1" t none, mkTQ 2 1 "q2" (t + 120) (some 1),
                mkTQ 3 1 "q3" (t + 180) (some 1), mkTQ 4 1 "q4" (t + 360) none] 5) 4 =
      mkTDb [mkTQ 1 1 "q1" t none, mkTQ 2 1 "q2" (t + 120) (some 1),
             mkTQ 3 1 "q3" (t + 180) (some 1), mkTQ 4 1 "q4" (t + 360) none] 5 ∧
    group_question_automatically
        (mkTDb [mkTQ 1 1 "q1" t none, mkTQ 5 2 "q5" (t + 60) none] 6) 5 =
      mkTDb [mkTQ 1 1 "q1" t none, mkTQ 5 2 "q5" (t + 60) none] 6 := by
  have hA : (t - 300 ≤ t) = True := eq_true (by omega)
  have hC : (t + 120 - 300 ≤ t) = True := eq_true (by omega)
  have hD : (t < t + 120) = True := eq_true (by omega)
  have hF : (t + 180 - 300 ≤ t) = True := eq_true (by omega)
  have hG : (t < t + 180) = True := eq_true (by omega)
  have hF2 : (t + 180 - 300 ≤ t + 120) = True := eq_true (by omega)
  have hG2 : (t + 120 < t + 180) = True := eq_true (by omega)
  have hH : (t + 360 - 300 ≤ t) = False := eq_false (by omega)
  have hH2 : (t + 360 - 300 ≤ t + 120) = True := eq_true (by omega)
  have hH3 : (t + 360 - 300 ≤ t + 180) = True := eq_true (by omega)
  have hG3 : (t + 120 < t + 360) = True := eq_true (by omega)
  have hG4 : (t + 180 < t + 360) = True := eq_true (by omega)
  have hI : (t + 60 - 300 ≤ t) = True := eq_true (by omega)
  have hJ : (t < t + 60) = True := eq_true (by omega)
  refine ⟨?_, ?_, ?_, ?_, ?_⟩ <;>
    simp [group_question_automatically, pickEarliest, mkTDb, mkTQ,
      hA, hC, hD, hF, hG, hF2, hG2, hH, hH2, hH3, hG3, hG4, hI, hJ]

end DougHub
